import Mathlib

/-!
Verification of the followmark browser extension (src/common.ts, src/popup.ts,
check/build utility modules) against its natural-language specification.

The TypeScript sources are shallowly embedded: each function becomes a total
Lean function over explicit inputs.  Asynchronous platform calls (script
injection, tab query, storage set, manifest lookup, clock, randomness) become
explicit parameters, so that a single run of a handler is a pure state
transformation.  JavaScript `undefined` is `Option.none`; JavaScript string
falsiness is `= ""`; a thrown exception is `Except.error`.
-/

/-! ## Data model (src/definitions.d.ts) -/

/-- A stored mark: `type Mark = { id: string; favIconUrl: string }`. -/
structure Mark where
  id : String
  favIconUrl : String
deriving DecidableEq, Repr

/-- `type FollowMarks = Record<string, Mark>`: a mapping from URL to Mark,
embedded as an association list with unique keys maintained by insertion. -/
abbrev FollowMarks := List (String × Mark)

/-- The logical persisted state, `FollowMarkStorage`: both slots optional,
absent (`none`) until first written. -/
structure StorageState where
  followMarkVersion : Option String
  followMarks : Option FollowMarks
deriving DecidableEq, Repr

/-! ## Tab model and the tab info extractor (src/common.ts, getInfoFromTab) -/

/-- The fields of a `chrome.tabs.Tab` that `getInfoFromTab` reads.  Each is
optional in the Chrome API (`string | undefined`, `number | undefined`). -/
structure Tab where
  url : Option String
  title : Option String
  favIconUrl : Option String
  id : Option Nat
deriving DecidableEq, Repr

/-- The record `{ url, title, favIconUrl }` returned by `getInfoFromTab`. -/
structure TabInfo where
  url : String
  title : String
  favIconUrl : String
deriving DecidableEq, Repr

/-- The environment of the one `chrome.scripting.executeScript` call:
either the injection throws (caught by the `try`/`catch` in the source), or
the injected function runs against a page whose first `link[rel*="icon"]`
element has the given `href` (`none` when no such link exists). -/
inductive ScriptEnv where
  | fails : ScriptEnv
  | runs : Option String → ScriptEnv
deriving DecidableEq, Repr

/-- JavaScript `String.prototype.startsWith`, embedded structurally (as a
character-list prefix test) so that it evaluates inside the kernel. -/
def jsStartsWith (s pre : String) : Bool :=
  pre.data.isPrefixOf s.data

/-- The injected function from the source:
`const link = document.querySelector(...); return link ? link.href : ""`. -/
def queryIconLinkHref (page : Option String) : String :=
  match page with
  | some href => href
  | none => ""

/-- Embedding of `getInfoFromTab` (src/common.ts lines 54-86).  Returns the
extracted info together with a flag recording whether `executeScript` was
invoked.  JS falsiness of `tab.url` / `tab.title` / `tab.favIconUrl`
(undefined or `""`) is `Option.getD ""`; falsiness of the numeric `tab.id`
is `none` or `some 0`.  The source assigns the injected result to
`favIconUrl` only when `results and results[0]?.result` is truthy, i.e. when
the returned string is non-empty; the `catch` branch only logs, leaving
`favIconUrl` unchanged. -/
def getInfoFromTab (tab : Tab) (env : ScriptEnv) : TabInfo × Bool :=
  let url := tab.url.getD ""
  let title := tab.title.getD ""
  let favIconUrl := tab.favIconUrl.getD ""
  if jsStartsWith favIconUrl "data:" then
    match tab.id with
    | none => (TabInfo.mk url title "", false)
    | some tabId =>
      if tabId = 0 then (TabInfo.mk url title "", false)
      else
        match env with
        | ScriptEnv.fails => (TabInfo.mk url title favIconUrl, true)
        | ScriptEnv.runs page =>
          let result := queryIconLinkHref page
          if result = "" then (TabInfo.mk url title favIconUrl, true)
          else (TabInfo.mk url title result, true)
  else (TabInfo.mk url title favIconUrl, false)

/-! ## Theorems: tab info extractor -/

/-- C5: a data-URI favicon together with a page that carries a matching icon
link with non-empty href (and a tab the extractor can inject into) yields
that link's href. -/
theorem c5_data_uri_replaced_by_link_href (tab : Tab) (d href : String) (n : Nat)
    (hfav : tab.favIconUrl = some d) (hd : jsStartsWith d "data:" = true)
    (hid : tab.id = some n) (hn : n ≠ 0) (hhref : href ≠ "") :
    (getInfoFromTab tab (ScriptEnv.runs (some href))).1.favIconUrl = href := by
  simp [getInfoFromTab, hfav, hd, hid, hn, queryIconLinkHref, hhref]

/-- C5 witness at a concrete tab and page. -/
theorem c5_data_uri_replaced_by_link_href_witness :
    (getInfoFromTab
        (Tab.mk (some "https://x/") (some "X") (some "data:image/png;base64,AAAA") (some 7))
        (ScriptEnv.runs (some "https://x/icon.png"))).1.favIconUrl
      = "https://x/icon.png" :=
  c5_data_uri_replaced_by_link_href
    (Tab.mk (some "https://x/") (some "X") (some "data:image/png;base64,AAAA") (some 7))
    "data:image/png;base64,AAAA" "https://x/icon.png" 7
    rfl (by decide) rfl (by decide) (by decide)

/-- C6: a present, non-data-URI favicon is returned unchanged and no script
injection is attempted. -/
theorem c6_non_data_uri_unchanged_no_injection (tab : Tab) (env : ScriptEnv) (s : String)
    (hfav : tab.favIconUrl = some s) (hs : s ≠ "")
    (hnd : jsStartsWith s "data:" = false) :
    (getInfoFromTab tab env).1.favIconUrl = s ∧ (getInfoFromTab tab env).2 = false := by
  refine ⟨?_, ?_⟩ <;> simp [getInfoFromTab, hfav, hnd]

/-- C6 witness at a concrete tab. -/
theorem c6_non_data_uri_unchanged_no_injection_witness :
    (getInfoFromTab
        (Tab.mk (some "https://x/") (some "X") (some "https://x/icon.ico") (some 7))
        ScriptEnv.fails).1.favIconUrl = "https://x/icon.ico"
    ∧ (getInfoFromTab
        (Tab.mk (some "https://x/") (some "X") (some "https://x/icon.ico") (some 7))
        ScriptEnv.fails).2 = false :=
  c6_non_data_uri_unchanged_no_injection
    (Tab.mk (some "https://x/") (some "X") (some "https://x/icon.ico") (some 7))
    ScriptEnv.fails "https://x/icon.ico" rfl (by decide) (by decide)

/-- C1 counterexample: for a tab with a data-URI favicon and a valid id
whose script injection throws, the extractor returns the original data URI,
not the empty string the claim requires. -/
theorem c1_injection_failure_keeps_data_uri_counterexample :
    (getInfoFromTab (Tab.mk (some "u") (some "t") (some "data:image/png;base64,AAAA") (some 1))
        ScriptEnv.fails).1.favIconUrl
      = "data:image/png;base64,AAAA" := by
  decide

/-- C1 amended: with a data-URI favicon, a falsy tab id yields the empty
string, while a throwing injection or a page with no icon link (or an empty
href) retains the original data URI; in every case the extractor returns
normally (it is a total function), so no error reaches the caller. -/
theorem c1_failure_modes_amended (tab : Tab) (env : ScriptEnv) (d : String)
    (hfav : tab.favIconUrl = some d) (hd : jsStartsWith d "data:" = true) :
    ((tab.id = none ∨ tab.id = some 0) → (getInfoFromTab tab env).1.favIconUrl = "")
    ∧ (∀ n, tab.id = some n → n ≠ 0 →
        (env = ScriptEnv.fails ∨ env = ScriptEnv.runs none ∨ env = ScriptEnv.runs (some "")) →
        (getInfoFromTab tab env).1.favIconUrl = d) := by
  constructor
  · intro hid
    rcases hid with h | h <;> simp [getInfoFromTab, hfav, hd, h]
  · intro n hid hn henv
    rcases henv with h | h | h <;>
      simp [getInfoFromTab, hfav, hd, hid, hn, h, queryIconLinkHref]

/-- C1 amended witness at a concrete tab with no id. -/
theorem c1_failure_modes_amended_witness :
    (((Tab.mk (some "u") (some "t") (some "data:x") none).id = none
        ∨ (Tab.mk (some "u") (some "t") (some "data:x") none).id = some 0) →
      (getInfoFromTab (Tab.mk (some "u") (some "t") (some "data:x") none)
          ScriptEnv.fails).1.favIconUrl = "")
    ∧ (∀ n, (Tab.mk (some "u") (some "t") (some "data:x") none).id = some n → n ≠ 0 →
        (ScriptEnv.fails = ScriptEnv.fails ∨ ScriptEnv.fails = ScriptEnv.runs none
          ∨ ScriptEnv.fails = ScriptEnv.runs (some "")) →
        (getInfoFromTab (Tab.mk (some "u") (some "t") (some "data:x") none)
            ScriptEnv.fails).1.favIconUrl = "data:x") :=
  c1_failure_modes_amended
    (Tab.mk (some "u") (some "t") (some "data:x") none)
    ScriptEnv.fails "data:x" rfl (by decide)

/-! ## Unique id generation (src/common.ts, generateUniqueId) -/

/-- One base-36 digit character, as produced by JavaScript
`Number.prototype.toString(36)`: digits `0`-`9` then lowercase `a`-`z`. -/
def base36Digit (d : Nat) : Char :=
  if d < 10 then Char.ofNat (48 + d) else Char.ofNat (87 + d)

/-- Fuel-driven digit accumulator for base-36 rendering; the fuel is always
sufficient because each step divides the remaining value by 36. -/
def toBase36Core : Nat → Nat → List Char → List Char
  | 0, _, acc => acc
  | fuel + 1, n, acc =>
    let d := base36Digit (n % 36)
    let next := n / 36
    if next = 0 then d :: acc else toBase36Core fuel next (d :: acc)

/-- JavaScript `n.toString(36)` for a non-negative integer `n`. -/
def toBase36 (n : Nat) : String :=
  String.mk (toBase36Core (n + 1) n [])

/-- Embedding of `generateUniqueId` (src/common.ts lines 45-47):
`Date.now().toString(36) + Math.random().toString(36).slice(2)`.  The call
time `now` (milliseconds) and the random base-36 suffix (the digits of
`Math.random()` after the leading `0.`) are explicit inputs. -/
def generateUniqueId (now : Nat) (randSuffix : String) : String :=
  toBase36 now ++ randSuffix

/-! ## Mark builder (src/common.ts, MakeMark) and storage write semantics -/

/-- The `followMarks` record that `MakeMark` (src/common.ts lines 1-15)
passes to `writeStorage`: a single-key mapping from the found tab's
extracted url to `{ id, favIconUrl }` with a freshly generated id.  The
active-tab query result `foundTab`, the injection environment, the clock
and the randomness are explicit inputs. -/
def MakeMark (foundTab : Tab) (env : ScriptEnv) (now : Nat) (rand : String) : FollowMarks :=
  let info := (getInfoFromTab foundTab env).1
  let id := generateUniqueId now rand
  [(info.url, Mark.mk id info.favIconUrl)]

/-- Lookup of a URL key in a `FollowMarks` mapping. -/
def lookupMark : FollowMarks → String → Option Mark
  | [], _ => none
  | (k, v) :: rest, key => if k = key then some v else lookupMark rest key

/-- Insert-or-overwrite of a single URL key in a `FollowMarks` mapping. -/
def insertMark : FollowMarks → String → Mark → FollowMarks
  | [], key, v => [(key, v)]
  | (k, w) :: rest, key, v =>
    if k = key then (k, v) :: rest else (k, w) :: insertMark rest key v

/-- Modelled from the spec: the storage write semantics that section 4.3
assumes of the underlying store's `set` (the platform's
`chrome.storage.local.set`, which is not part of this repository): the
written `followMarks` mapping "merges/overwrites only the one URL key being
added" into the existing mapping "rather than replacing the whole
mapping". -/
def mergeMarks (old written : FollowMarks) : FollowMarks :=
  written.foldl (fun acc kv => insertMark acc kv.1 kv.2) old

theorem lookupMark_insertMark_self (m : FollowMarks) (key : String) (v : Mark) :
    lookupMark (insertMark m key v) key = some v := by
  induction m with
  | nil => simp [insertMark, lookupMark]
  | cons kv rest ih =>
    rcases kv with ⟨k, w⟩
    by_cases h : k = key <;> simp [insertMark, lookupMark, h, ih]

theorem lookupMark_insertMark_other (m : FollowMarks) (key other : String) (v : Mark)
    (h : other ≠ key) :
    lookupMark (insertMark m key v) other = lookupMark m other := by
  have hko : ¬ key = other := fun h' => h h'.symm
  induction m with
  | nil => simp [insertMark, lookupMark, hko]
  | cons kv rest ih =>
    rcases kv with ⟨k, w⟩
    by_cases hk : k = key
    · subst hk
      simp [insertMark, lookupMark, hko]
    · simp [insertMark, lookupMark, hk, ih]

/-- The extracted url field is always the tab's url defaulted to `""`,
whatever the favicon branch does. -/
theorem getInfoFromTab_url (tab : Tab) (env : ScriptEnv) :
    (getInfoFromTab tab env).1.url = tab.url.getD "" := by
  rcases tab with ⟨u, t, f, i⟩
  unfold getInfoFromTab
  dsimp only
  by_cases hf : jsStartsWith (f.getD "") "data:"
  · simp only [hf, if_true]
    cases i with
    | none => rfl
    | some n =>
      by_cases hn : n = 0
      · simp [hn]
      · cases env with
        | fails => simp [hn]
        | runs page =>
          by_cases hr : queryIconLinkHref page = ""
          · simp [hn, hr]
          · simp [hn, hr]
  · simp [hf]

/-- C2: writing the single-key mapping produced by `MakeMark` for url `a`
into a store whose `followMarks` already holds an entry for a different url
`b`, under the merge-on-set semantics the spec assumes of the store, yields
a mapping containing both the new entry for `a` and the untouched entry for
`b`. -/
theorem c2_merge_write_keeps_existing_entry (old : FollowMarks) (a b : String) (mb : Mark)
    (tab : Tab) (env : ScriptEnv) (now : Nat) (rand : String)
    (hurl : tab.url = some a) (hne : b ≠ a)
    (hold : lookupMark old b = some mb) :
    lookupMark (mergeMarks old (MakeMark tab env now rand)) a
        = some (Mark.mk (generateUniqueId now rand) (getInfoFromTab tab env).1.favIconUrl)
    ∧ lookupMark (mergeMarks old (MakeMark tab env now rand)) b = some mb := by
  have hu : (getInfoFromTab tab env).1.url = a := by
    rw [getInfoFromTab_url, hurl]
    rfl
  have hm : mergeMarks old (MakeMark tab env now rand)
      = insertMark old a (Mark.mk (generateUniqueId now rand)
          (getInfoFromTab tab env).1.favIconUrl) := by
    simp [mergeMarks, MakeMark, List.foldl, hu]
  rw [hm]
  refine ⟨lookupMark_insertMark_self old a _, ?_⟩
  rw [lookupMark_insertMark_other old a b _ hne]
  exact hold

/-- C2 witness: concrete store holding an entry for `https://b`, concrete
tab at `https://a`. -/
theorem c2_merge_write_keeps_existing_entry_witness :
    lookupMark
        (mergeMarks [("https://b", Mark.mk "i0" "f0")]
          (MakeMark (Tab.mk (some "https://a") (some "A") (some "https://a/i.ico") (some 3))
            ScriptEnv.fails 0 "r"))
        "https://a"
      = some (Mark.mk (generateUniqueId 0 "r")
          (getInfoFromTab
            (Tab.mk (some "https://a") (some "A") (some "https://a/i.ico") (some 3))
            ScriptEnv.fails).1.favIconUrl)
    ∧ lookupMark
        (mergeMarks [("https://b", Mark.mk "i0" "f0")]
          (MakeMark (Tab.mk (some "https://a") (some "A") (some "https://a/i.ico") (some 3))
            ScriptEnv.fails 0 "r"))
        "https://b"
      = some (Mark.mk "i0" "f0") :=
  c2_merge_write_keeps_existing_entry [("https://b", Mark.mk "i0" "f0")]
    "https://a" "https://b" (Mark.mk "i0" "f0")
    (Tab.mk (some "https://a") (some "A") (some "https://a/i.ico") (some 3))
    ScriptEnv.fails 0 "r" rfl (by decide) (by decide)

/-! ## Popup controller (src/popup.ts, Main's onclick handler) -/

/-- Observable storage writes and the mark-builder invocation performed
during one run of the popup click handler. -/
inductive PopupEvent where
  | wroteVersion : String → PopupEvent
  | invokedMakeMark : PopupEvent
  | wroteMarks : FollowMarks → PopupEvent
deriving DecidableEq, Repr

/-- Embedding of the popup button's onclick handler (src/popup.ts lines
8-18), one complete sequential run.  It reads `followMarkVersion`; if the
value is falsy (absent slot or empty string) it writes the manifest
version.  It then reads `followMarks`; only if the value is absent
(`undefined` — any stored object, even empty, is truthy) it invokes
`MakeMark`, whose write lands in the `followMarks` slot.  Returns the
resulting storage state and the trace of events. -/
def popupClick (st : StorageState) (manifestVersion : String) (foundTab : Tab)
    (env : ScriptEnv) (now : Nat) (rand : String) : StorageState × List PopupEvent :=
  let versionTest := st.followMarkVersion
  let p1 :=
    if versionTest = none ∨ versionTest = some "" then
      (StorageState.mk (some manifestVersion) st.followMarks,
        [PopupEvent.wroteVersion manifestVersion])
    else (st, ([] : List PopupEvent))
  let st1 := p1.1
  match st1.followMarks with
  | none =>
    let marks := MakeMark foundTab env now rand
    (StorageState.mk st1.followMarkVersion (some marks),
      p1.2 ++ [PopupEvent.invokedMakeMark, PopupEvent.wroteMarks marks])
  | some _ => (st1, p1.2)

/-- C3: a complete click-handler run from fully empty storage leaves
`followMarkVersion` equal to the manifest version and `followMarks` holding
exactly one entry, keyed by the active tab's URL. -/
theorem c3_first_click_populates_both_slots (v : String) (tab : Tab) (env : ScriptEnv)
    (now : Nat) (rand : String) (u : String) (hurl : tab.url = some u) :
    (popupClick (StorageState.mk none none) v tab env now rand).1.followMarkVersion = some v
    ∧ (popupClick (StorageState.mk none none) v tab env now rand).1.followMarks
        = some [(u, Mark.mk (generateUniqueId now rand)
            (getInfoFromTab tab env).1.favIconUrl)] := by
  have hu : (getInfoFromTab tab env).1.url = u := by
    rw [getInfoFromTab_url, hurl]
    rfl
  constructor
  · simp [popupClick]
  · simp [popupClick, MakeMark, hu]

/-- C3 witness at a concrete tab and manifest version, from empty storage. -/
theorem c3_first_click_populates_both_slots_witness :
    (popupClick (StorageState.mk none none) "1.0"
        (Tab.mk (some "https://x/") (some "X") (some "https://x/i.ico") (some 5))
        ScriptEnv.fails 0 "r").1.followMarkVersion = some "1.0"
    ∧ (popupClick (StorageState.mk none none) "1.0"
        (Tab.mk (some "https://x/") (some "X") (some "https://x/i.ico") (some 5))
        ScriptEnv.fails 0 "r").1.followMarks
      = some [("https://x/", Mark.mk (generateUniqueId 0 "r")
          (getInfoFromTab
            (Tab.mk (some "https://x/") (some "X") (some "https://x/i.ico") (some 5))
            ScriptEnv.fails).1.favIconUrl)] :=
  c3_first_click_populates_both_slots "1.0"
    (Tab.mk (some "https://x/") (some "X") (some "https://x/i.ico") (some 5))
    ScriptEnv.fails 0 "r" "https://x/" rfl

/-- C4: when `followMarkVersion` holds a non-empty (truthy) string and
`followMarks` holds any mapping, a further click-handler run performs no
write at all (empty event trace) and returns the state unchanged. -/
theorem c4_click_on_populated_storage_is_noop (st : StorageState) (v : String)
    (m : FollowMarks) (mv : String) (tab : Tab) (env : ScriptEnv) (now : Nat) (rand : String)
    (hv : st.followMarkVersion = some mv) (hmv : mv ≠ "")
    (hm : st.followMarks = some m) :
    popupClick st v tab env now rand = (st, []) := by
  simp [popupClick, hv, hmv, hm]

/-- C4 witness: a concretely populated storage state is untouched by a
further click. -/
theorem c4_click_on_populated_storage_is_noop_witness :
    popupClick
        (StorageState.mk (some "1.0") (some [("https://x/", Mark.mk "i" "f")]))
        "1.0"
        (Tab.mk (some "https://y/") (some "Y") (some "https://y/i.ico") (some 5))
        ScriptEnv.fails 0 "r"
      = (StorageState.mk (some "1.0") (some [("https://x/", Mark.mk "i" "f")]), []) :=
  c4_click_on_populated_storage_is_noop
    (StorageState.mk (some "1.0") (some [("https://x/", Mark.mk "i" "f")]))
    "1.0" [("https://x/", Mark.mk "i" "f")] "1.0"
    (Tab.mk (some "https://y/") (some "Y") (some "https://y/i.ico") (some 5))
    ScriptEnv.fails 0 "r" rfl (by decide) rfl

/-- C10: whenever the `followMarks` slot holds any object value — the empty
mapping included — a click-handler run never invokes `MakeMark`: the
absence check is JS truthiness and every stored object is truthy. -/
theorem c10_stored_marks_object_blocks_MakeMark (st : StorageState) (m : FollowMarks)
    (v : String) (tab : Tab) (env : ScriptEnv) (now : Nat) (rand : String)
    (hm : st.followMarks = some m) :
    PopupEvent.invokedMakeMark ∉ (popupClick st v tab env now rand).2 := by
  by_cases hv : st.followMarkVersion = none ∨ st.followMarkVersion = some ""
  · simp [popupClick, hv, hm]
  · simp [popupClick, hv, hm]

/-- C10 witness: storage holding the empty mapping (and no version) still
never triggers the mark builder. -/
theorem c10_stored_marks_object_blocks_MakeMark_witness :
    PopupEvent.invokedMakeMark ∉
      (popupClick (StorageState.mk none (some [])) "1.0"
        (Tab.mk (some "https://x/") (some "X") (some "https://x/i.ico") (some 5))
        ScriptEnv.fails 0 "r").2 :=
  c10_stored_marks_object_blocks_MakeMark (StorageState.mk none (some [])) [] "1.0"
    (Tab.mk (some "https://x/") (some "X") (some "https://x/i.ico") (some 5))
    ScriptEnv.fails 0 "r" rfl

/-! ## Theorems: unique id generation -/

theorem string_append_data (s t : String) : (s ++ t).data = s.data ++ t.data := by
  rcases s with ⟨a⟩
  rcases t with ⟨b⟩
  rfl

/-- C7: with the same call-time timestamp, two calls whose random suffixes
differ return distinct strings, and each returned string is the timestamp
rendered in base 36 concatenated with the random suffix.  (Distinctness is
exactly as strong as the spec's "practically, not provably, unique": it
holds whenever the two random draws differ.) -/
theorem c7_generateUniqueId_distinct_and_format (t : Nat) (r1 r2 : String)
    (h : r1 ≠ r2) :
    generateUniqueId t r1 ≠ generateUniqueId t r2
    ∧ generateUniqueId t r1 = toBase36 t ++ r1 := by
  refine ⟨?_, rfl⟩
  intro he
  apply h
  have hdata : (toBase36 t).data ++ r1.data = (toBase36 t).data ++ r2.data := by
    have h2 := congrArg String.data he
    rwa [generateUniqueId, generateUniqueId, string_append_data, string_append_data] at h2
  have h3 : r1.data = r2.data := List.append_cancel_left hdata
  exact String.ext h3

/-- C7 witness: concrete timestamp with two concrete distinct suffixes. -/
theorem c7_generateUniqueId_distinct_and_format_witness :
    generateUniqueId 1700000000000 "ab3x" ≠ generateUniqueId 1700000000000 "ab3y"
    ∧ generateUniqueId 1700000000000 "ab3x" = toBase36 1700000000000 ++ "ab3x" :=
  c7_generateUniqueId_distinct_and_format 1700000000000 "ab3x" "ab3y" (by decide)

/-! ## Check / Return guard utilities (check module, src/unnamed/part_000) -/

/-- Embedding of `Check.forUndefined` (part_000 lines 100-106): a thrown
`Error` is `Except.error` carrying the thrown message. -/
def Check.forUndefined {α : Type} (item : Option α) : Except String α :=
  match item with
  | none => Except.error "item is undefined"
  | some x => Except.ok x

/-- Embedding of `Check.forNull` (part_000 lines 113-118); the template
literal renders the null input, so the message is "null is null". -/
def Check.forNull {α : Type} (item : Option α) : Except String α :=
  match item with
  | none => Except.error "null is null"
  | some x => Except.ok x

/-- `Return.element` (part_000): delegates to `Check.forNull`. -/
def Return.element {α : Type} (item : Option α) : Except String α :=
  Check.forNull item

/-- `Return.button`: delegates to `Check.forNull`. -/
def Return.button {α : Type} (b : Option α) : Except String α :=
  Check.forNull b

/-- `Return.string`: delegates to `Check.forNull`. -/
def Return.string (s : Option String) : Except String String :=
  Check.forNull s

/-- `Return.number`: delegates to `Check.forUndefined`. -/
def Return.number (n : Option Int) : Except String Int :=
  Check.forUndefined n

/-- `Return._any`: delegates to `Check.forNull`. -/
def Return._any {α : Type} (item : Option α) : Except String α :=
  Check.forNull item

/-- C8: every guard returns a present input unchanged (`Except.ok`), and
throws a descriptive error on the null/undefined input it checks for. -/
theorem c8_guards_identity_or_descriptive_error (α : Type) (x : α) (s : String) (n : Int) :
    Check.forNull (some x) = Except.ok x
    ∧ Check.forUndefined (some x) = Except.ok x
    ∧ Return.element (some x) = Except.ok x
    ∧ Return.button (some x) = Except.ok x
    ∧ Return.string (some s) = Except.ok s
    ∧ Return.number (some n) = Except.ok n
    ∧ Return._any (some x) = Except.ok x
    ∧ @Check.forNull α none = Except.error "null is null"
    ∧ @Check.forUndefined α none = Except.error "item is undefined"
    ∧ @Return.element α none = Except.error "null is null"
    ∧ @Return.button α none = Except.error "null is null"
    ∧ Return.string none = Except.error "null is null"
    ∧ Return.number none = Except.error "item is undefined"
    ∧ @Return._any α none = Except.error "null is null" :=
  ⟨rfl, rfl, rfl, rfl, rfl, rfl, rfl, rfl, rfl, rfl, rfl, rfl, rfl, rfl⟩

/-! ## JavaScript value model for the type predicates (part_000) -/

/-- A JavaScript runtime value, modelled with just the distinctions the
Check utilities observe (`typeof`, `Array.isArray`, `Object.keys`). -/
inductive JSValue where
  | null : JSValue
  | undefined : JSValue
  | bool : Bool → JSValue
  | num : Int → JSValue
  | str : String → JSValue
  | arr : List JSValue → JSValue
  | obj : List (String × JSValue) → JSValue

/-- JavaScript `typeof`; notably `typeof null === "object"`. -/
def jsTypeof : JSValue → String
  | JSValue.null => "object"
  | JSValue.undefined => "undefined"
  | JSValue.bool _ => "boolean"
  | JSValue.num _ => "number"
  | JSValue.str _ => "string"
  | JSValue.arr _ => "object"
  | JSValue.obj _ => "object"

/-- JavaScript `Array.isArray`. -/
def jsIsArray : JSValue → Bool
  | JSValue.arr _ => true
  | _ => false

/-- Embedding of `Check.isObject` (part_000 lines 54-59): false for arrays,
otherwise `typeof item === "object"`. -/
def Check.isObject (item : JSValue) : Bool :=
  if jsIsArray item = true then false
  else jsTypeof item = "object"

/-- JavaScript `Object.keys`: throws a TypeError on null/undefined; own
enumerable keys otherwise (index strings for arrays and strings, field
names for plain objects, nothing for the other primitives). -/
def objectKeys : JSValue → Except String (List String)
  | JSValue.null => Except.error "TypeError: Cannot convert undefined or null to object"
  | JSValue.undefined => Except.error "TypeError: Cannot convert undefined or null to object"
  | JSValue.bool _ => Except.ok []
  | JSValue.num _ => Except.ok []
  | JSValue.str s => Except.ok ((List.range s.length).map (fun i => toString i))
  | JSValue.arr xs => Except.ok ((List.range xs.length).map (fun i => toString i))
  | JSValue.obj fields => Except.ok (fields.map Prod.fst)

/-- Embedding of `Check.isEmpty.object` (part_000 lines 16-22): throws its
descriptive error when `Check.isObject` rejects the input, otherwise
evaluates `Object.keys(ob).length === 0`. -/
def Check.isEmpty.object (ob : JSValue) : Except String Bool :=
  if Check.isObject ob = false then
    Except.error "isEmpty.object() input is not an Object."
  else
    match objectKeys ob with
    | Except.error e => Except.error e
    | Except.ok keys => Except.ok (keys.length == 0)

/-- C9: `Check.isObject(null)` is true, so `Check.isEmpty.object(null)`
passes the type guard and never produces the descriptive
"input is not an Object" error (it instead surfaces the TypeError that
`Object.keys(null)` raises). -/
theorem c9_null_classified_as_object :
    Check.isObject JSValue.null = true
    ∧ Check.isEmpty.object JSValue.null
        ≠ Except.error "isEmpty.object() input is not an Object." := by
  constructor
  · rfl
  · intro h
    simp [Check.isEmpty.object, Check.isObject, jsIsArray, jsTypeof, objectKeys] at h
